import Mathlib

/-!
Verification of the upstream load balancer, warm-standby manager, UDP port
table and SOCKS address decoding of `outline-cli-ws`.

Shallow embedding conventions:
* Instants and durations (`time.Time`, `time.Duration`, nanoseconds) are
  modelled as exact rationals (`ℚ`); the Go code computes several quantities
  through `float64` (score, EWMA, adaptive intervals) and this development
  models that real-valued arithmetic exactly over `ℚ` (so `0.8` is `4/5`,
  `0.2` is `1/5`, `1.2` is `6/5`).
* `time.Duration.Milliseconds()` truncates toward zero; this is kept exactly
  (`ratTrunc`).
* Go pointers into the pool are modelled as indices into the pool list;
  `lb.current == s` becomes equality of indices.
* The random draw of `randInt63n(2*jitter+1)` is passed in explicitly as a
  parameter `r`; a valid draw satisfies `0 ≤ r ≤ 2*jitter`.
* Errors are modelled as `Option String` / `Except`; `none` is Go `nil`.
-/

namespace OutlineWS

/-- Truncation of a rational toward zero, as Go's `float64`→`int64` and
`Duration.Milliseconds` conversions do. -/
def ratTrunc (q : ℚ) : ℤ :=
  q.num / (q.den : ℤ)

/-- Healthcheck configuration, from `HealthcheckConfig` in the source. -/
structure HealthcheckConfig where
  interval : ℚ
  timeout : ℚ
  jitter : ℚ
  minInterval : ℚ
  maxInterval : ℚ
  backoffFactor : ℚ
  failThreshold : ℤ
  successThreshold : ℤ
  rttScale : ℚ
deriving Repr, DecidableEq

/-- Selection configuration, from `SelectionConfig` in the source. -/
structure SelectionConfig where
  stickyTTL : ℚ
  minSwitch : ℚ
  cooldown : ℚ
  warmStandbyN : ℤ
  warmStandbyInterval : ℚ
deriving Repr, DecidableEq

/-- Immutable per-upstream configuration (`UpstreamConfig`); only the fields
the balancer logic reads are kept. -/
structure UpstreamConfig where
  name : String
  weight : ℤ
deriving Repr, DecidableEq

/-- Mutable per-upstream health state, from `upstreamState` in
`internal/lb.go` (the standby slot is modelled separately, see below). -/
structure upstreamState where
  cfg : UpstreamConfig
  healthy : Bool
  failCount : ℤ
  successCount : ℤ
  lastError : Option String
  lastCheckTime : ℚ
  nextHC : ℚ
  hcEvery : ℚ
  lastRTT : ℚ
  rttEWMA : ℚ
  cooldownUntil : ℚ
deriving Repr, DecidableEq

/-- Balancer state, from `LoadBalancer` in `internal/lb.go`.  `current` is an
index into `pool` (Go stores a pointer to a pool member). -/
structure LoadBalancer where
  hc : HealthcheckConfig
  sel : SelectionConfig
  pool : List upstreamState
  current : Option ℕ
  stickyUntil : ℚ
deriving Repr, DecidableEq

/-- Jitter application from `applyJitter` (src/unnamed/part_014): `r` is the
value drawn by `randInt63n(int64(2*jitter)+1)`. -/
def applyJitter (d jitter r : ℚ) : ℚ :=
  if jitter ≤ 0 then d
  else
    let j := r - jitter
    if d + j < 0 then d else d + j

/-- Duration minimum from `minDur` (src/unnamed/part_014). -/
def minDur (a b : ℚ) : ℚ :=
  if a < b then a else b

/-- Candidate score of one upstream, exactly the arithmetic of the loop body
of `pickBestCandidate` (internal/lb.go:110-169): base RTT in truncated
milliseconds (or 1000 when not positive), staleness penalty, failure and
last-error penalties, divided by the coerced-positive weight. -/
def scoreOf (hc : HealthcheckConfig) (now : ℚ) (s : upstreamState) : ℚ :=
  let baseMs : ℚ := (ratTrunc (s.rttEWMA / 1000000) : ℚ)
  let base : ℚ := if baseMs ≤ 0 then 1000 else baseMs
  let staleness : ℚ := now - s.lastCheckTime
  let stalePenalty : ℚ :=
    if 2 * hc.interval < staleness then (ratTrunc (staleness / 1000000) : ℚ) * (1 / 5) else 0
  let failPenalty : ℚ := (s.failCount : ℚ) * 500
  let errPenalty : ℚ := if s.lastError.isSome then 500 else 0
  let w : ℤ := if s.cfg.weight ≤ 0 then 1 else s.cfg.weight
  (base + stalePenalty + failPenalty + errPenalty) * (1 / (w : ℚ))

/-- Eligibility filter of `pickBestCandidate`: not skipped by the
`!healthy` / `now.Before(cooldownUntil)` continues. -/
def eligible (now : ℚ) (s : upstreamState) : Prop :=
  s.healthy = true ∧ s.cooldownUntil ≤ now

instance (now : ℚ) (s : upstreamState) : Decidable (eligible now s) := by
  unfold eligible; infer_instance

/-- The sentinel initial best score `float64(1e18)` of `pickBestCandidate`. -/
def bigScore : ℚ := 1000000000000000000

/-- Selection loop of `pickBestCandidate`: walks the pool in order keeping
the strictly best score seen so far (index, score, rttEWMA of the best). -/
def pickLoop (hc : HealthcheckConfig) (now : ℚ) :
    List upstreamState → ℕ → Option ℕ × ℚ × ℚ → Option ℕ × ℚ × ℚ
  | [], _, acc => acc
  | s :: rest, i, (best, bestScore, bestRTT) =>
    if eligible now s then
      let sc := scoreOf hc now s
      if sc < bestScore then
        pickLoop hc now rest (i + 1) (some i, sc, s.rttEWMA)
      else
        pickLoop hc now rest (i + 1) (best, bestScore, bestRTT)
    else
      pickLoop hc now rest (i + 1) (best, bestScore, bestRTT)

/-- Candidate selection, from `pickBestCandidate` (internal/lb.go:110-169).
Returns the chosen pool index together with the `bestRTT` the Go function
returns, or `none` for the `errors.New("no healthy upstreams")` failure. -/
def pickBestCandidate (hc : HealthcheckConfig) (pool : List upstreamState) (now : ℚ) :
    Option (ℕ × ℚ) :=
  match pickLoop hc now pool 0 (none, bigScore, 0) with
  | (none, _, _) => none
  | (some i, _, rtt) => some (i, rtt)

/-- Steps 2-4 of `Pick` (internal/lb.go:75-108): best-candidate selection,
hysteresis against the current upstream, and the sticky update. -/
def pickAfterSticky (lb : LoadBalancer) (now : ℚ) : Option (ℕ × LoadBalancer) :=
  match pickBestCandidate lb.hc lb.pool now with
  | none => none
  | some (bi, bestRTT) =>
    let keepCurrent : Option ℕ :=
      match lb.current with
      | some ci =>
        match lb.pool[ci]? with
        | some cur =>
          if cur.healthy = true ∧ cur.cooldownUntil < now ∧ 0 < cur.rttEWMA ∧ 0 < bestRTT ∧
              cur.rttEWMA - bestRTT < lb.sel.minSwitch
          then some ci else none
        | none => none
      | none => none
    match keepCurrent with
    | some ci =>
      some (ci, { lb with current := some ci, stickyUntil := now + lb.sel.stickyTTL })
    | none =>
      some (bi, { lb with current := some bi, stickyUntil := now + lb.sel.stickyTTL })

/-- TCP pick, from `Pick` (internal/lb.go:55-108).  The first branch is the
sticky fast path: a current upstream inside the sticky window that is healthy
and strictly past its cooldown is returned with the balancer unchanged. -/
def Pick (lb : LoadBalancer) (now : ℚ) : Option (ℕ × LoadBalancer) :=
  match lb.current with
  | some ci =>
    match lb.pool[ci]? with
    | some cur =>
      if now < lb.stickyUntil ∧ cur.healthy = true ∧ cur.cooldownUntil < now
      then some (ci, lb)
      else pickAfterSticky lb now
    | none => pickAfterSticky lb now
  | none => pickAfterSticky lb now

/-- Per-upstream effect of `ReportFailure` (internal/lb.go:278-306): the new
upstream record written back under the state lock. -/
def reportFailureState (hc : HealthcheckConfig) (sel : SelectionConfig)
    (s : upstreamState) (e : String) (now r : ℚ) : upstreamState :=
  { s with
    lastError := some e
    failCount := s.failCount + 1
    cooldownUntil := now + sel.cooldown
    healthy := if hc.failThreshold ≤ s.failCount + 1 then false else s.healthy
    hcEvery := hc.minInterval
    nextHC := now + applyJitter hc.minInterval hc.jitter r }

/-- Failure report, from `ReportFailure` (internal/lb.go:278-306): updates the
upstream at index `si` and clears `stickyUntil` when that upstream is the
current sticky one.  `r` is the jitter draw. -/
def ReportFailure (lb : LoadBalancer) (si : ℕ) (e : String) (now r : ℚ) :
    LoadBalancer :=
  match lb.pool[si]? with
  | none => lb
  | some s =>
    { lb with
      pool := lb.pool.set si (reportFailureState lb.hc lb.sel s e now r)
      stickyUntil := if lb.current = some si then 0 else lb.stickyUntil }

/-- Adaptive interval after a failed probe, from `nextIntervalOnFailure`
(internal/lb.go:457-475). -/
def nextIntervalOnFailure (hc : HealthcheckConfig) (st : upstreamState) : ℚ :=
  let base0 : ℚ := if 0 < st.hcEvery then st.hcEvery else hc.minInterval
  let base : ℚ := if st.healthy = true then hc.minInterval else base0
  let next0 : ℚ := base * hc.backoffFactor
  let next1 : ℚ := if next0 < hc.minInterval then hc.minInterval else next0
  if hc.maxInterval < next1 then hc.maxInterval else next1

/-- Adaptive interval after a successful probe, from `nextIntervalOnSuccess`
(internal/lb.go:477-501). -/
def nextIntervalOnSuccess (hc : HealthcheckConfig) (st : upstreamState) : ℚ :=
  let base0 : ℚ := if st.hcEvery = 0 then hc.interval else st.hcEvery
  let base : ℚ := if st.successCount < 3 then minDur base0 hc.interval else base0
  let next0 : ℚ := base * (6 / 5) + st.rttEWMA * hc.rttScale
  let next1 : ℚ := if next0 < hc.minInterval then hc.minInterval else next0
  if hc.maxInterval < next1 then hc.maxInterval else next1

/-- Health-check state update, from `checkOne` (internal/lb.go:408-455).  The
probe outcome is `res` (`.error e` for a failed probe, `.ok rtt` for a
successful one with measured round-trip time `rtt`); `r` is the jitter
draw used for the rescheduling. -/
def checkOne (hc : HealthcheckConfig) (st : upstreamState)
    (res : Except String ℚ) (now r : ℚ) : upstreamState :=
  match res with
  | .error e =>
    let s1 := { st with
      lastCheckTime := now
      lastError := some e
      successCount := 0
      failCount := st.failCount + 1 }
    let s2 := { s1 with
      healthy := if hc.failThreshold ≤ s1.failCount then false else s1.healthy }
    let ne := nextIntervalOnFailure hc s2
    { s2 with hcEvery := ne, nextHC := now + applyJitter ne hc.jitter r }
  | .ok rtt =>
    let s1 := { st with
      lastCheckTime := now
      lastError := none
      failCount := 0
      successCount := st.successCount + 1
      lastRTT := rtt
      rttEWMA := if st.rttEWMA = 0 then rtt else (4 / 5) * st.rttEWMA + (1 / 5) * rtt }
    let s2 :=
      if hc.successThreshold ≤ s1.successCount then
        { s1 with healthy := true, cooldownUntil := 0 }
      else s1
    let ne := nextIntervalOnSuccess hc s2
    { s2 with hcEvery := ne, nextHC := now + applyJitter ne hc.jitter r }

/-- Effect of `EnsureStandbyTCP` (internal/warm_standby.go:64-105) on the
standby slot of one upstream.  Connections are identified by naturals.  The
slot is read under its own lock at two separate points (the exists-check and
the install after dialing); a concurrent filler may change it in between, so
the two observed slot values are passed separately: `slotA` at the first
acquisition and `slotB` at the install.  `dial` is the dial outcome (`none`
for a dial error).  Returns the final slot value together with the list of
connections closed, paired with the close reason used. -/
def EnsureStandbyTCP (healthy : Bool) (cooldownUntil now : ℚ)
    (slotA : Option ℕ) (dial : Option ℕ) (slotB : Option ℕ) :
    Option ℕ × List (ℕ × String) :=
  if healthy = true ∧ cooldownUntil < now then
    match slotA with
    | some _ => (slotA, [])
    | none =>
      match dial with
      | none => (slotB, [])
      | some c =>
        match slotB with
        | some d => (some d, [(c, "duplicate-standby")])
        | none => (some c, [])
  else
    match slotA with
    | some c => (none, [(c, "standby-reset")])
    | none => (none, [])

/-- Key of the UDP port table (`udpPortKey`, tun_udp_porttable_linux.go). -/
structure udpPortKey where
  netProto : ℕ
  srcIP : String
  srcPort : ℕ
deriving Repr, DecidableEq

/-- Port-session value: the fields of `udpPortSession` the table logic
touches (upstream and session are opaque identifiers). -/
structure udpPortSession where
  up : ℕ
  sess : ℕ
  lastSeen : ℚ
deriving Repr, DecidableEq

/-- Association-list lookup for the `ports` map. -/
def portsLookup (ports : List (udpPortKey × udpPortSession)) (key : udpPortKey) :
    Option udpPortSession :=
  match ports with
  | [] => none
  | (k, v) :: rest => if k = key then some v else portsLookup rest key

/-- Update the `lastSeen` of an existing entry in place. -/
def portsTouch (ports : List (udpPortKey × udpPortSession)) (key : udpPortKey)
    (now : ℚ) : List (udpPortKey × udpPortSession) :=
  match ports with
  | [] => []
  | (k, v) :: rest =>
    if k = key then (k, { v with lastSeen := now }) :: rest
    else (k, v) :: portsTouch rest key now

/-- Errors surfaced by `getOrCreate`: the explicit limit error (with the
limit it reports), or a propagated pick / session-creation error. -/
inductive PortTableErr where
  | limitReached (limit : ℤ)
  | pickFailed (e : String)
  | sessionFailed (e : String)
deriving Repr, DecidableEq

/-- Lookup-or-create of the UDP port table, from `getOrCreate`
(tun_udp_porttable_linux.go:43-86).  `cfgLimit` is `cfg.UDPMaxFlows`;
`pickRes` models `lb.PickUDP()` and `sessRes up` models
`NewOutlineUDPSession(..., up)` — they are consumed only on the paths where
the Go code calls them.  The result carries the session handed out, the
resulting table, and whether `ReportUDPFailure` was invoked. -/
def getOrCreate (cfgLimit : ℤ) (ports : List (udpPortKey × udpPortSession))
    (key : udpPortKey) (now : ℚ)
    (pickRes : Except String ℕ) (sessRes : ℕ → Except String ℕ) :
    Except PortTableErr udpPortSession ×
      List (udpPortKey × udpPortSession) × Bool :=
  match portsLookup ports key with
  | some ps =>
    (.ok { ps with lastSeen := now }, portsTouch ports key now, false)
  | none =>
    let limit : ℤ := if cfgLimit ≤ 0 then 4096 else cfgLimit
    if limit ≤ (ports.length : ℤ) then
      (.error (.limitReached limit), ports, false)
    else
      match pickRes with
      | .error e => (.error (.pickFailed e), ports, false)
      | .ok up =>
        match sessRes up with
        | .error e => (.error (.sessionFailed e), ports, true)
        | .ok sess =>
          let ps : udpPortSession := { up := up, sess := sess, lastSeen := now }
          (.ok ps, ports ++ [(key, ps)], false)

/-- Host component returned by the SOCKS address decoder: the raw address
bytes for IPv4/IPv6 (rendered by `net.IP(...).String()` in Go) or the raw
domain bytes (rendered by `string(...)`). -/
inductive SocksHost where
  | ipv4 (bytes : List ℕ)
  | domain (bytes : List ℕ)
  | ipv6 (bytes : List ℕ)
deriving Repr, DecidableEq

/-- Big-endian 16-bit read at offset `i` (Go `binary.BigEndian.Uint16`). -/
def portAt (plain : List ℕ) (i : ℕ) : ℕ :=
  (plain[i]?.getD 0) * 256 + (plain[i + 1]?.getD 0)

/-- SOCKS address decoder, from `parseSocksAddrFromPlain`
(internal/udp_common.go:17-53).  On success it yields the host, the port
value (Go renders it in decimal via `itoa`) and the number of bytes
consumed. -/
def parseSocksAddrFromPlain (plain : List ℕ) :
    Except String (SocksHost × ℕ × ℕ) :=
  match plain with
  | [] => .error "short"
  | atyp :: _ =>
    if atyp = 1 then
      if plain.length < 1 + 4 + 2 then .error "short ipv4"
      else .ok (.ipv4 ((plain.drop 1).take 4), portAt plain 5, 7)
    else if atyp = 3 then
      if plain.length < 1 + 1 then .error "short domain len"
      else
        let l := (plain.drop 1).headI
        if plain.length < 2 + l + 2 then .error "short domain"
        else .ok (.domain ((plain.drop 2).take l), portAt plain (2 + l), 2 + l + 2)
    else if atyp = 4 then
      if plain.length < 1 + 16 + 2 then .error "short ipv6"
      else .ok (.ipv6 ((plain.drop 1).take 16), portAt plain 17, 19)
    else .error "bad atyp"

/-! ### Helper lemmas -/

theorem applyJitter_bounds {d jitter r M : ℚ} (hd0 : 0 ≤ d) (hdM : d ≤ M)
    (hj : 0 ≤ jitter) (hr0 : 0 ≤ r) (hr2 : r ≤ 2 * jitter) :
    0 ≤ applyJitter d jitter r ∧ applyJitter d jitter r ≤ M + jitter := by
  simp only [applyJitter]
  split_ifs <;> constructor <;> linarith

theorem nextIntervalOnFailure_bounds (hc : HealthcheckConfig) (st : upstreamState)
    (h1 : 0 < hc.minInterval) (h2 : hc.minInterval ≤ hc.maxInterval) :
    hc.minInterval ≤ nextIntervalOnFailure hc st ∧
      nextIntervalOnFailure hc st ≤ hc.maxInterval := by
  simp only [nextIntervalOnFailure]
  split_ifs <;> constructor <;> linarith

theorem nextIntervalOnSuccess_bounds (hc : HealthcheckConfig) (st : upstreamState)
    (h1 : 0 < hc.minInterval) (h2 : hc.minInterval ≤ hc.maxInterval) :
    hc.minInterval ≤ nextIntervalOnSuccess hc st ∧
      nextIntervalOnSuccess hc st ≤ hc.maxInterval := by
  simp only [nextIntervalOnSuccess, minDur]
  split_ifs <;> constructor <;> linarith

/-- Combined correctness invariant of the selection loop: either nothing beat
the incoming accumulator (and every eligible entry scores at least the
incoming best score), or the loop selected the first eligible entry attaining
the strict minimum below the incoming best score. -/
theorem pickLoop_spec (hc : HealthcheckConfig) (now : ℚ) :
    ∀ (L : List upstreamState) (i0 : ℕ) (b : Option ℕ) (bs brtt : ℚ),
      (pickLoop hc now L i0 (b, bs, brtt) = (b, bs, brtt) ∧
        ∀ (p : ℕ) (t : upstreamState), L[p]? = some t → eligible now t → bs ≤ scoreOf hc now t) ∨
      (∃ (p : ℕ) (t : upstreamState), L[p]? = some t ∧ eligible now t ∧
        pickLoop hc now L i0 (b, bs, brtt) =
          (some (i0 + p), scoreOf hc now t, t.rttEWMA) ∧
        scoreOf hc now t < bs ∧
        ∀ (q : ℕ) (u : upstreamState), L[q]? = some u → eligible now u →
          scoreOf hc now t ≤ scoreOf hc now u ∧
          (q < p → scoreOf hc now t < scoreOf hc now u)) := by
  intro L
  induction L with
  | nil =>
    intro i0 b bs brtt
    left
    refine ⟨rfl, ?_⟩
    intro p t hp
    simp at hp
  | cons s rest ih =>
    intro i0 b bs brtt
    by_cases he : eligible now s
    · by_cases hlt : scoreOf hc now s < bs
      · have hstep : pickLoop hc now (s :: rest) i0 (b, bs, brtt) =
            pickLoop hc now rest (i0 + 1) (some i0, scoreOf hc now s, s.rttEWMA) := by
          simp [pickLoop, he, hlt]
        rcases ih (i0 + 1) (some i0) (scoreOf hc now s) s.rttEWMA with
          ⟨heq, hmin⟩ | ⟨p, t, hp, het, heq, hlt', hmin⟩
        · right
          refine ⟨0, s, by simp, he, ?_, hlt, ?_⟩
          · rw [hstep, heq, Nat.add_zero]
          · intro q u hq hu
            cases q with
            | zero =>
              rw [List.getElem?_cons_zero] at hq
              cases hq
              exact ⟨le_refl _, fun h => absurd h (Nat.not_lt_zero _)⟩
            | succ q' =>
              rw [List.getElem?_cons_succ] at hq
              exact ⟨hmin q' u hq hu, fun h => absurd h (Nat.not_lt_zero _)⟩
        · right
          refine ⟨p + 1, t, by rwa [List.getElem?_cons_succ], het, ?_, lt_trans hlt' hlt, ?_⟩
          · rw [hstep, heq]
            have : i0 + 1 + p = i0 + (p + 1) := by omega
            rw [this]
          · intro q u hq hu
            cases q with
            | zero =>
              rw [List.getElem?_cons_zero] at hq
              cases hq
              exact ⟨le_of_lt hlt', fun _ => hlt'⟩
            | succ q' =>
              rw [List.getElem?_cons_succ] at hq
              refine ⟨(hmin q' u hq hu).1, fun h => (hmin q' u hq hu).2 (by omega)⟩
      · have hstep : pickLoop hc now (s :: rest) i0 (b, bs, brtt) =
            pickLoop hc now rest (i0 + 1) (b, bs, brtt) := by
          simp [pickLoop, he, hlt]
        rcases ih (i0 + 1) b bs brtt with
          ⟨heq, hmin⟩ | ⟨p, t, hp, het, heq, hlt', hmin⟩
        · left
          refine ⟨by rw [hstep, heq], ?_⟩
          intro q u hq hu
          cases q with
          | zero =>
            rw [List.getElem?_cons_zero] at hq
            cases hq
            exact not_lt.mp hlt
          | succ q' =>
            rw [List.getElem?_cons_succ] at hq
            exact hmin q' u hq hu
        · right
          refine ⟨p + 1, t, by rwa [List.getElem?_cons_succ], het, ?_, hlt', ?_⟩
          · rw [hstep, heq]
            have : i0 + 1 + p = i0 + (p + 1) := by omega
            rw [this]
          · intro q u hq hu
            cases q with
            | zero =>
              rw [List.getElem?_cons_zero] at hq
              cases hq
              have hle : scoreOf hc now t < scoreOf hc now s :=
                lt_of_lt_of_le hlt' (not_lt.mp hlt)
              exact ⟨le_of_lt hle, fun _ => hle⟩
            | succ q' =>
              rw [List.getElem?_cons_succ] at hq
              refine ⟨(hmin q' u hq hu).1, fun h => (hmin q' u hq hu).2 (by omega)⟩
    · have hstep : pickLoop hc now (s :: rest) i0 (b, bs, brtt) =
          pickLoop hc now rest (i0 + 1) (b, bs, brtt) := by
        simp [pickLoop, he]
      rcases ih (i0 + 1) b bs brtt with
        ⟨heq, hmin⟩ | ⟨p, t, hp, het, heq, hlt', hmin⟩
      · left
        refine ⟨by rw [hstep, heq], ?_⟩
        intro q u hq hu
        cases q with
        | zero =>
          rw [List.getElem?_cons_zero] at hq
          cases hq
          exact absurd hu he
        | succ q' =>
          rw [List.getElem?_cons_succ] at hq
          exact hmin q' u hq hu
      · right
        refine ⟨p + 1, t, by rwa [List.getElem?_cons_succ], het, ?_, hlt', ?_⟩
        · rw [hstep, heq]
          have : i0 + 1 + p = i0 + (p + 1) := by omega
          rw [this]
        · intro q u hq hu
          cases q with
          | zero =>
            rw [List.getElem?_cons_zero] at hq
            cases hq
            exact absurd hu he
          | succ q' =>
            rw [List.getElem?_cons_succ] at hq
            refine ⟨(hmin q' u hq hu).1, fun h => (hmin q' u hq hu).2 (by omega)⟩

/-! ### C1: failure reporting -/

/-- C1 (amended): for every upstream in the pool, `ReportFailure` records the
error, increments `fail_count` while leaving `success_count` unchanged, sets
`healthy = false` only when the incremented `fail_count` reaches
`fail_threshold` (otherwise `healthy` is untouched), starts the cooldown at
`now + cooldown`, resets `hc_every = min_interval`, reschedules
`next_hc_time = now + jitter(min_interval)`, and clears `sticky_until`
exactly when the reported upstream is the current sticky one. -/
theorem reportFailure_effect (lb : LoadBalancer) (si : ℕ) (e : String)
    (now r : ℚ) (s : upstreamState) (hget : lb.pool[si]? = some s) :
    (ReportFailure lb si e now r).pool[si]? =
      some (reportFailureState lb.hc lb.sel s e now r) ∧
    (reportFailureState lb.hc lb.sel s e now r).lastError = some e ∧
    (reportFailureState lb.hc lb.sel s e now r).failCount = s.failCount + 1 ∧
    (reportFailureState lb.hc lb.sel s e now r).successCount = s.successCount ∧
    (reportFailureState lb.hc lb.sel s e now r).cooldownUntil = now + lb.sel.cooldown ∧
    (reportFailureState lb.hc lb.sel s e now r).healthy =
      (if lb.hc.failThreshold ≤ s.failCount + 1 then false else s.healthy) ∧
    (reportFailureState lb.hc lb.sel s e now r).hcEvery = lb.hc.minInterval ∧
    (reportFailureState lb.hc lb.sel s e now r).nextHC =
      now + applyJitter lb.hc.minInterval lb.hc.jitter r ∧
    (ReportFailure lb si e now r).stickyUntil =
      (if lb.current = some si then 0 else lb.stickyUntil) := by
  obtain ⟨hlen, -⟩ := List.getElem?_eq_some_iff.mp hget
  refine ⟨?_, rfl, rfl, rfl, rfl, rfl, rfl, rfl, ?_⟩
  · simp [ReportFailure, hget, List.getElem?_set_self hlen]
  · simp [ReportFailure, hget]

/-- Configuration and state used by the C1 counterexample: an upstream with
three accumulated successes and no failures, fail threshold 2. -/
def hcC1 : HealthcheckConfig :=
  { interval := 5000000000, timeout := 3000000000, jitter := 0,
    minInterval := 1000000000, maxInterval := 30000000000,
    backoffFactor := 8 / 5, failThreshold := 2, successThreshold := 1,
    rttScale := 1 / 4 }

/-- Selection configuration for the C1 counterexample. -/
def selC1 : SelectionConfig :=
  { stickyTTL := 60000000000, minSwitch := 20000000, cooldown := 20000000000,
    warmStandbyN := 2, warmStandbyInterval := 2000000000 }

/-- Upstream state for the C1 counterexample. -/
def sC1 : upstreamState :=
  { cfg := { name := "a", weight := 1 }, healthy := true, failCount := 0,
    successCount := 3, lastError := none, lastCheckTime := 0, nextHC := 0,
    hcEvery := 0, lastRTT := 0, rttEWMA := 0, cooldownUntil := 0 }

/-- Balancer for the C1 counterexample. -/
def lbC1 : LoadBalancer :=
  { hc := hcC1, sel := selC1, pool := [sC1], current := some 0, stickyUntil := 0 }

/-- C1 counterexample: after `ReportFailure` on an upstream with
`success_count = 3`, `fail_count = 0` and `fail_threshold = 2`, the success
count is still 3 and the upstream is still healthy — the claim's
"`success_count = 0`, `healthy = false` regardless of any threshold" is false
at this input. -/
theorem reportFailure_claim_false :
    ((ReportFailure lbC1 0 "dial failed" 100 0).pool[0]?.map
        (fun u => (u.successCount, u.healthy))) = some (3, true) ∧
    ¬ ((ReportFailure lbC1 0 "dial failed" 100 0).pool[0]?.map
        (fun u => (u.successCount, u.healthy))) = some (0, false) := by
  constructor <;>
    norm_num [ReportFailure, reportFailureState, lbC1, sC1, hcC1, selC1]

/-! ### C2: the counters invariant -/

/-- C2 (amended): after every probe observation applied by `checkOne` the
product `fail_count × success_count` is zero — a failed probe zeroes
`success_count` and a successful probe zeroes `fail_count`.  (The invariant
does not survive `ReportFailure`, see the counterexample.) -/
theorem checkOne_counts (hc : HealthcheckConfig) (st : upstreamState)
    (res : Except String ℚ) (now r : ℚ) :
    (checkOne hc st res now r).failCount * (checkOne hc st res now r).successCount = 0 := by
  cases res with
  | error e => simp [checkOne]
  | ok rtt =>
    simp only [checkOne]
    split_ifs <;> simp

/-- Balancer for the C2 counterexample: one upstream with a single
accumulated success. -/
def lbC2 : LoadBalancer :=
  { hc := hcC1, sel := selC1,
    pool := [{ cfg := { name := "a", weight := 1 }, healthy := true,
               failCount := 0, successCount := 1, lastError := none,
               lastCheckTime := 0, nextHC := 0, hcEvery := 0, lastRTT := 0,
               rttEWMA := 0, cooldownUntil := 0 }],
    current := none, stickyUntil := 0 }

/-- C2 counterexample: `ReportFailure` is a health observation in the claim's
sense, yet it leaves `success_count` untouched, so after reporting a failure
on an upstream with one success both counters are positive and the product is
1, not 0. -/
theorem counters_claim_false :
    ((ReportFailure lbC2 0 "boom" 5 0).pool[0]?.map
        (fun u => u.failCount * u.successCount)) = some 1 := by
  norm_num [ReportFailure, reportFailureState, lbC2, hcC1, selC1]

/-- C1 witness: the amended `ReportFailure` characterization applied to the
concrete one-upstream balancer. -/
theorem reportFailure_effect_witness :
    (ReportFailure lbC1 0 "probe" 7 0).pool[0]? =
      some (reportFailureState lbC1.hc lbC1.sel sC1 "probe" 7 0) ∧
    (reportFailureState lbC1.hc lbC1.sel sC1 "probe" 7 0).successCount =
      sC1.successCount :=
  ⟨(reportFailure_effect lbC1 0 "probe" 7 0 sC1 rfl).1,
   (reportFailure_effect lbC1 0 "probe" 7 0 sC1 rfl).2.2.2.1⟩

/-! ### C3: candidate selection -/

/-- C3 (amended): `pickBestCandidate` considers exactly the upstreams that
are healthy with `cooldown_until ≤ now`.  It returns the no-healthy-upstream
error precisely when every such upstream scores at least the `1e18` sentinel
the loop starts from (in particular when none is eligible); otherwise it
returns the first eligible upstream whose score is the global minimum over
all eligible upstreams (ties broken by pool insertion order), together with
that upstream's `rtt_ewma`. -/
theorem pickBestCandidate_correct (hc : HealthcheckConfig)
    (pool : List upstreamState) (now : ℚ) :
    (pickBestCandidate hc pool now = none ↔
      ∀ (p : ℕ) (t : upstreamState), pool[p]? = some t → eligible now t →
        bigScore ≤ scoreOf hc now t) ∧
    (∀ (i : ℕ) (rtt : ℚ), pickBestCandidate hc pool now = some (i, rtt) →
      ∃ t, pool[i]? = some t ∧ eligible now t ∧ rtt = t.rttEWMA ∧
        scoreOf hc now t < bigScore ∧
        ∀ (q : ℕ) (u : upstreamState), pool[q]? = some u → eligible now u →
          scoreOf hc now t ≤ scoreOf hc now u ∧
          (q < i → scoreOf hc now t < scoreOf hc now u)) := by
  rcases pickLoop_spec hc now pool 0 none bigScore 0 with
    ⟨heq, hmin⟩ | ⟨p, t, hp, het, heq, hlt, hmin⟩
  · constructor
    · exact ⟨fun _ => hmin, fun _ => by simp [pickBestCandidate, heq]⟩
    · intro i rtt h
      simp [pickBestCandidate, heq] at h
  · have hpb : pickBestCandidate hc pool now = some (p, t.rttEWMA) := by
      simp [pickBestCandidate, heq]
    constructor
    · constructor
      · intro h
        rw [hpb] at h
        simp at h
      · intro hall
        exact absurd (hall p t hp het) (not_le.mpr hlt)
    · intro i rtt h
      rw [hpb] at h
      simp only [Option.some.injEq, Prod.mk.injEq] at h
      obtain ⟨hi, hrtt⟩ := h
      subst hi
      exact ⟨t, hp, het, hrtt.symm, hlt, hmin⟩

/-- Healthcheck configuration for the C3 counterexample and witness. -/
def hcC3 : HealthcheckConfig :=
  { interval := 5000000000, timeout := 3000000000, jitter := 200000000,
    minInterval := 1000000000, maxInterval := 30000000000,
    backoffFactor := 8 / 5, failThreshold := 2, successThreshold := 1,
    rttScale := 1 / 4 }

/-- Upstream for the C3 counterexample: healthy, out of cooldown, but with a
fail count so large that `fail_count × 500` alone reaches the `1e18`
sentinel. -/
def sC3 : upstreamState :=
  { cfg := { name := "a", weight := 1 }, healthy := true,
    failCount := 2000000000000000, successCount := 0, lastError := none,
    lastCheckTime := 100, nextHC := 0, hcEvery := 0, lastRTT := 0,
    rttEWMA := 0, cooldownUntil := 0 }

/-- C3 counterexample: this upstream is eligible (healthy and past its
cooldown), yet `pickBestCandidate` returns the no-healthy-upstream error
because its score does not beat the `1e18` sentinel — contradicting the
claim that an eligible global minimum is always returned and the error is
reserved for "no upstream is eligible". -/
theorem pickBestCandidate_claim_false :
    eligible 100 sC3 ∧ pickBestCandidate hcC3 [sC3] 100 = none := by
  constructor
  · exact ⟨rfl, by norm_num [sC3]⟩
  · norm_num [pickBestCandidate, pickLoop, eligible, scoreOf, ratTrunc,
      bigScore, sC3, hcC3]

/-- Pool used by the C3 witness: a slower and a faster healthy upstream. -/
def poolC3 : List upstreamState :=
  [{ cfg := { name := "a", weight := 1 }, healthy := true, failCount := 0,
     successCount := 1, lastError := none, lastCheckTime := 100, nextHC := 0,
     hcEvery := 0, lastRTT := 0, rttEWMA := 50000000, cooldownUntil := 0 },
   { cfg := { name := "b", weight := 1 }, healthy := true, failCount := 0,
     successCount := 1, lastError := none, lastCheckTime := 100, nextHC := 0,
     hcEvery := 0, lastRTT := 0, rttEWMA := 10000000, cooldownUntil := 0 }]

/-- C3 witness: the characterization applied to the concrete two-upstream
pool, where the faster upstream (index 1) is selected. -/
theorem pickBestCandidate_correct_witness :
    ∃ t, poolC3[1]? = some t ∧ eligible 100 t ∧ (10000000 : ℚ) = t.rttEWMA ∧
      scoreOf hcC3 100 t < bigScore ∧
      ∀ (q : ℕ) (u : upstreamState), poolC3[q]? = some u → eligible 100 u →
        scoreOf hcC3 100 t ≤ scoreOf hcC3 100 u ∧
        (q < 1 → scoreOf hcC3 100 t < scoreOf hcC3 100 u) :=
  (pickBestCandidate_correct hcC3 poolC3 100).2 1 10000000 (by
    norm_num [pickBestCandidate, pickLoop, eligible, scoreOf, ratTrunc,
      bigScore, poolC3, hcC3])

/-! ### C4: the sticky fast path -/

/-- C4 (amended): when the balancer has a current upstream, the instant lies
inside the sticky window and the current upstream is healthy with
`cooldown_until < now` (strictly — `time.Time.After` is strict), `Pick`
returns the current upstream with the balancer state unchanged; hence two
successive picks under these conditions return the same upstream index. -/
theorem pick_sticky_returns_current (lb : LoadBalancer) (ci : ℕ)
    (cur : upstreamState) (now₁ now₂ : ℚ)
    (hcur : lb.current = some ci) (hget : lb.pool[ci]? = some cur)
    (hh : cur.healthy = true)
    (hs1 : now₁ < lb.stickyUntil) (hc1 : cur.cooldownUntil < now₁)
    (hs2 : now₂ < lb.stickyUntil) (hc2 : cur.cooldownUntil < now₂) :
    Pick lb now₁ = some (ci, lb) ∧ Pick lb now₂ = some (ci, lb) := by
  constructor
  · simp only [Pick, hcur, hget]
    rw [if_pos ⟨hs1, hh, hc1⟩]
  · simp only [Pick, hcur, hget]
    rw [if_pos ⟨hs2, hh, hc2⟩]

/-- Current upstream for the C4 counterexample: healthy, inside the sticky
window, with `cooldown_until` exactly equal to `now`. -/
def curC4 : upstreamState :=
  { cfg := { name := "a", weight := 1 }, healthy := true, failCount := 0,
    successCount := 1, lastError := none, lastCheckTime := 100, nextHC := 0,
    hcEvery := 0, lastRTT := 0, rttEWMA := 50000000, cooldownUntil := 100 }

/-- Faster competing upstream for the C4 counterexample. -/
def fastC4 : upstreamState :=
  { cfg := { name := "b", weight := 1 }, healthy := true, failCount := 0,
    successCount := 1, lastError := none, lastCheckTime := 100, nextHC := 0,
    hcEvery := 0, lastRTT := 0, rttEWMA := 10000000, cooldownUntil := 0 }

/-- Balancer for the C4 counterexample. -/
def lbC4 : LoadBalancer :=
  { hc := hcC3, sel := selC1, pool := [curC4, fastC4], current := some 0,
    stickyUntil := 1000000000000 }

/-- C4 counterexample: all the claim's premises hold with
`cooldown_until ≤ now` (here `cooldown_until = now = 100`), yet `Pick` does
not return the current upstream (index 0): the code requires
`now.After(cooldownUntil)` strictly, falls through to rescoring and returns
the faster upstream (index 1). -/
theorem pick_sticky_claim_false :
    lbC4.current = some 0 ∧ (100 : ℚ) < lbC4.stickyUntil ∧
    curC4.healthy = true ∧ curC4.cooldownUntil ≤ 100 ∧
    (Pick lbC4 100).map Prod.fst = some 1 := by
  refine ⟨rfl, by norm_num [lbC4], rfl, by norm_num [curC4], ?_⟩
  norm_num [Pick, pickAfterSticky, pickBestCandidate, pickLoop, eligible,
    scoreOf, ratTrunc, bigScore, lbC4, curC4, fastC4, hcC3, selC1]

/-- C4 witness: the sticky fast path applied to a concrete balancer whose
current upstream is strictly past its cooldown, at two instants inside the
sticky window. -/
theorem pick_sticky_returns_current_witness :
    Pick { hc := hcC3, sel := selC1, pool := [fastC4], current := some 0,
           stickyUntil := 1000000000000 } 100 =
      some (0, { hc := hcC3, sel := selC1, pool := [fastC4], current := some 0,
                 stickyUntil := 1000000000000 }) ∧
    Pick { hc := hcC3, sel := selC1, pool := [fastC4], current := some 0,
           stickyUntil := 1000000000000 } 200 =
      some (0, { hc := hcC3, sel := selC1, pool := [fastC4], current := some 0,
                 stickyUntil := 1000000000000 }) :=
  pick_sticky_returns_current _ 0 fastC4 100 200 rfl rfl rfl
    (by norm_num) (by norm_num [fastC4]) (by norm_num) (by norm_num [fastC4])

/-! ### C5: hysteresis -/

/-- C5 (amended): when a TCP pick reaches the hysteresis step (the sticky
window is over) with a healthy current upstream strictly past its cooldown,
and both the current upstream's `rtt_ewma` and the best candidate's
`rtt_ewma` are strictly positive (both measured — the code skips hysteresis
otherwise, see the counterexample), then `Pick` keeps the current upstream
when `current.rtt_ewma - best.rtt_ewma < min_switch` and switches to the
best candidate otherwise; in either case `current` is set to the returned
upstream and `sticky_until` is extended to `now + sticky_ttl`. -/
theorem pick_hysteresis (lb : LoadBalancer) (now : ℚ) (ci : ℕ)
    (cur : upstreamState) (bi : ℕ) (bestRTT : ℚ)
    (hcur : lb.current = some ci) (hget : lb.pool[ci]? = some cur)
    (hns : ¬ now < lb.stickyUntil)
    (hbest : pickBestCandidate lb.hc lb.pool now = some (bi, bestRTT))
    (hh : cur.healthy = true) (hcd : cur.cooldownUntil < now)
    (hcr : 0 < cur.rttEWMA) (hbr : 0 < bestRTT) :
    (cur.rttEWMA - bestRTT < lb.sel.minSwitch →
      Pick lb now =
        some (ci, { lb with current := some ci, stickyUntil := now + lb.sel.stickyTTL })) ∧
    (¬ cur.rttEWMA - bestRTT < lb.sel.minSwitch →
      Pick lb now =
        some (bi, { lb with current := some bi, stickyUntil := now + lb.sel.stickyTTL })) := by
  have hPick : Pick lb now = pickAfterSticky lb now := by
    simp only [Pick, hcur, hget]
    rw [if_neg]
    intro h
    exact hns h.1
  constructor
  · intro hsw
    rw [hPick]
    simp only [pickAfterSticky, hbest, hcur, hget]
    rw [if_pos ⟨hh, hcd, hcr, hbr, hsw⟩]
  · intro hsw
    rw [hPick]
    simp only [pickAfterSticky, hbest, hcur, hget]
    rw [if_neg]
    intro h
    exact hsw h.2.2.2.2

/-- Current upstream for the C5 counterexample: healthy, past cooldown, but
with an unmeasured `rtt_ewma = 0`. -/
def curC5 : upstreamState :=
  { cfg := { name := "a", weight := 1 }, healthy := true, failCount := 0,
    successCount := 1, lastError := none, lastCheckTime := 100, nextHC := 0,
    hcEvery := 0, lastRTT := 0, rttEWMA := 0, cooldownUntil := 0 }

/-- Measured competing upstream for the C5 counterexample. -/
def fastC5 : upstreamState :=
  { cfg := { name := "b", weight := 1 }, healthy := true, failCount := 0,
    successCount := 1, lastError := none, lastCheckTime := 100, nextHC := 0,
    hcEvery := 0, lastRTT := 0, rttEWMA := 1000000, cooldownUntil := 0 }

/-- Balancer for the C5 counterexample: sticky window over, generous
`min_switch`. -/
def lbC5 : LoadBalancer :=
  { hc := hcC3,
    sel := { stickyTTL := 60000000000, minSwitch := 1000000000,
             cooldown := 20000000000, warmStandbyN := 2,
             warmStandbyInterval := 2000000000 },
    pool := [curC5, fastC5], current := some 0, stickyUntil := 0 }

/-- C5 counterexample: the pick reaches the hysteresis step with a healthy,
uncooled current upstream and `current.rtt_ewma - best.rtt_ewma < min_switch`
(0 - 1ms < 1s), so the claim says the current upstream (index 0) is kept —
but the code skips hysteresis when `current.rtt_ewma` is not strictly
positive and switches to the best candidate (index 1). -/
theorem pick_hysteresis_claim_false :
    lbC5.current = some 0 ∧ curC5.healthy = true ∧
    curC5.cooldownUntil < 100 ∧ ¬ (100 : ℚ) < lbC5.stickyUntil ∧
    pickBestCandidate lbC5.hc lbC5.pool 100 = some (1, 1000000) ∧
    curC5.rttEWMA - 1000000 < lbC5.sel.minSwitch ∧
    (Pick lbC5 100).map Prod.fst = some 1 := by
  refine ⟨rfl, rfl, by norm_num [curC5], by norm_num [lbC5], ?_,
    by norm_num [curC5, lbC5], ?_⟩
  · norm_num [pickBestCandidate, pickLoop, eligible, scoreOf, ratTrunc,
      bigScore, lbC5, curC5, fastC5, hcC3]
  · norm_num [Pick, pickAfterSticky, pickBestCandidate, pickLoop, eligible,
      scoreOf, ratTrunc, bigScore, lbC5, curC5, fastC5, hcC3]

/-- Current upstream for the C5 witness: measured RTT, cooldown long past. -/
def curC5w : upstreamState :=
  { curC4 with cooldownUntil := 0 }

/-- Balancer for the C5 witness: both RTTs measured, sticky window over. -/
def lbC5w : LoadBalancer :=
  { hc := hcC3,
    sel := { stickyTTL := 60000000000, minSwitch := 100000000,
             cooldown := 20000000000, warmStandbyN := 2,
             warmStandbyInterval := 2000000000 },
    pool := [curC5w, fastC4], current := some 0, stickyUntil := 0 }

/-- C5 witness: the hysteresis theorem applied to a concrete balancer whose
current upstream is 40 ms slower than the best but within the 100 ms
`min_switch`, so the current upstream is kept and the sticky window is
extended. -/
theorem pick_hysteresis_witness :
    Pick lbC5w 100 =
      some (0, { lbC5w with current := some 0, stickyUntil := 100 + lbC5w.sel.stickyTTL }) :=
  (pick_hysteresis lbC5w 100 0 curC5w 1 10000000 rfl rfl (by norm_num [lbC5w])
      (by norm_num [pickBestCandidate, pickLoop, eligible, scoreOf, ratTrunc,
        bigScore, lbC5w, curC5w, curC4, fastC4, hcC3])
      rfl (by norm_num [curC5w, curC4]) (by norm_num [curC5w, curC4])
      (by norm_num)).1
    (by norm_num [curC5w, curC4, lbC5w])

/-! ### C6: adaptive schedule bounds -/

theorem nextHC_bound_aux (hc : HealthcheckConfig) (now r ne : ℚ)
    (h1 : 0 < hc.minInterval) (h2 : hc.minInterval ≤ hc.maxInterval)
    (h3 : 0 ≤ hc.jitter) (hr0 : 0 ≤ r) (hr2 : r ≤ 2 * hc.jitter)
    (hne1 : hc.minInterval ≤ ne) (hne2 : ne ≤ hc.maxInterval) :
    now ≤ now + applyJitter ne hc.jitter r ∧
      now + applyJitter ne hc.jitter r ≤ now + hc.maxInterval + hc.jitter := by
  have h := applyJitter_bounds (le_of_lt (lt_of_lt_of_le h1 hne1)) hne2 h3 hr0 hr2
  constructor <;> linarith [h.1, h.2]

/-- C6: assuming `0 < min_interval ≤ max_interval`, `jitter ≥ 0` and a valid
jitter draw, every health-state update keeps the adaptive period inside
`[min_interval, max_interval]` — `checkOne` through the clamped
failure/success interval formulas, `ReportFailure` by pinning `hc_every` to
`min_interval` — and schedules `next_hc_time` inside
`[now, now + max_interval + jitter]`. -/
theorem adaptive_schedule_bounds (lb : LoadBalancer) (st : upstreamState)
    (res : Except String ℚ) (now r : ℚ) (si : ℕ) (e : String)
    (s : upstreamState)
    (h1 : 0 < lb.hc.minInterval) (h2 : lb.hc.minInterval ≤ lb.hc.maxInterval)
    (h3 : 0 ≤ lb.hc.jitter) (hr0 : 0 ≤ r) (hr2 : r ≤ 2 * lb.hc.jitter)
    (hget : lb.pool[si]? = some s) :
    (lb.hc.minInterval ≤ (checkOne lb.hc st res now r).hcEvery ∧
      (checkOne lb.hc st res now r).hcEvery ≤ lb.hc.maxInterval) ∧
    (now ≤ (checkOne lb.hc st res now r).nextHC ∧
      (checkOne lb.hc st res now r).nextHC ≤
        now + lb.hc.maxInterval + lb.hc.jitter) ∧
    (∃ s', (ReportFailure lb si e now r).pool[si]? = some s' ∧
      s'.hcEvery = lb.hc.minInterval ∧
      now ≤ s'.nextHC ∧ s'.nextHC ≤ now + lb.hc.maxInterval + lb.hc.jitter) := by
  obtain ⟨hlen, -⟩ := List.getElem?_eq_some_iff.mp hget
  refine ⟨?_, ?_, ?_⟩
  · cases res with
    | error e' =>
      simp only [checkOne]
      exact nextIntervalOnFailure_bounds lb.hc _ h1 h2
    | ok rtt =>
      simp only [checkOne]
      exact nextIntervalOnSuccess_bounds lb.hc _ h1 h2
  · cases res with
    | error e' =>
      simp only [checkOne]
      exact nextHC_bound_aux lb.hc now r _ h1 h2 h3 hr0 hr2
        (nextIntervalOnFailure_bounds lb.hc _ h1 h2).1
        (nextIntervalOnFailure_bounds lb.hc _ h1 h2).2
    | ok rtt =>
      simp only [checkOne]
      exact nextHC_bound_aux lb.hc now r _ h1 h2 h3 hr0 hr2
        (nextIntervalOnSuccess_bounds lb.hc _ h1 h2).1
        (nextIntervalOnSuccess_bounds lb.hc _ h1 h2).2
  · refine ⟨reportFailureState lb.hc lb.sel s e now r, ?_, rfl, ?_⟩
    · simp [ReportFailure, hget, List.getElem?_set_self hlen]
    · exact nextHC_bound_aux lb.hc now r lb.hc.minInterval h1 h2 h3 hr0 hr2
        (le_refl _) h2

/-- Upstream state used by the C6 witness. -/
def stC6 : upstreamState :=
  { cfg := { name := "a", weight := 1 }, healthy := true, failCount := 0,
    successCount := 1, lastError := none, lastCheckTime := 0, nextHC := 0,
    hcEvery := 5000000000, lastRTT := 0, rttEWMA := 20000000,
    cooldownUntil := 0 }

/-- Balancer used by the C6 witness (spec-default healthcheck numbers:
interval 5 s, min 1 s, max 30 s, jitter 200 ms, backoff 1.6, rtt_scale
0.25). -/
def lbC6 : LoadBalancer :=
  { hc := { interval := 5000000000, timeout := 3000000000,
            jitter := 200000000, minInterval := 1000000000,
            maxInterval := 30000000000, backoffFactor := 8 / 5,
            failThreshold := 2, successThreshold := 1, rttScale := 1 / 4 },
    sel := selC1, pool := [stC6], current := none, stickyUntil := 0 }

/-- C6 witness: the bounds applied to a concrete failed-probe update and a
concrete failure report with draw `r = 100000000`. -/
theorem adaptive_schedule_bounds_witness :
    (lbC6.hc.minInterval ≤ (checkOne lbC6.hc stC6 (.error "x") 50 100000000).hcEvery ∧
      (checkOne lbC6.hc stC6 (.error "x") 50 100000000).hcEvery ≤ lbC6.hc.maxInterval) ∧
    ((50 : ℚ) ≤ (checkOne lbC6.hc stC6 (.error "x") 50 100000000).nextHC ∧
      (checkOne lbC6.hc stC6 (.error "x") 50 100000000).nextHC ≤
        50 + lbC6.hc.maxInterval + lbC6.hc.jitter) ∧
    (∃ s', (ReportFailure lbC6 0 "x" 50 100000000).pool[0]? = some s' ∧
      s'.hcEvery = lbC6.hc.minInterval ∧
      (50 : ℚ) ≤ s'.nextHC ∧ s'.nextHC ≤ 50 + lbC6.hc.maxInterval + lbC6.hc.jitter) :=
  adaptive_schedule_bounds lbC6 stC6 (.error "x") 50 100000000 0 "x" stC6
    (by norm_num [lbC6]) (by norm_num [lbC6]) (by norm_num [lbC6])
    (by norm_num) (by norm_num [lbC6]) rfl

/-! ### C7: EWMA update -/

/-- C7: a successful probe observation applied by `checkOne` sets `rtt_ewma`
to the observed `rtt` exactly when the state was unmeasured
(`rtt_ewma == 0`), and to `0.8·rtt_ewma + 0.2·rtt` otherwise (the `float64`
arithmetic is modelled exactly over `ℚ`). -/
theorem checkOne_ewma (hc : HealthcheckConfig) (st : upstreamState)
    (rtt now r : ℚ) :
    (st.rttEWMA = 0 → (checkOne hc st (.ok rtt) now r).rttEWMA = rtt) ∧
    (st.rttEWMA ≠ 0 →
      (checkOne hc st (.ok rtt) now r).rttEWMA =
        (4 / 5) * st.rttEWMA + (1 / 5) * rtt) := by
  constructor <;> intro h <;>
  · simp only [checkOne]
    split_ifs <;> simp [h]

/-- Unmeasured upstream state for the C7 witness. -/
def stC7a : upstreamState :=
  { cfg := { name := "a", weight := 1 }, healthy := true, failCount := 0,
    successCount := 1, lastError := none, lastCheckTime := 0, nextHC := 0,
    hcEvery := 0, lastRTT := 0, rttEWMA := 0, cooldownUntil := 0 }

/-- Measured upstream state (30 units of EWMA) for the C7 witness. -/
def stC7b : upstreamState :=
  { stC7a with rttEWMA := 30 }

/-- C7 witness: the EWMA theorem applied to a concrete unmeasured state
(result is the observed RTT) and to a concrete measured state (result is the
80/20 blend). -/
theorem checkOne_ewma_witness :
    (checkOne lbC6.hc stC7a (.ok 42) 5 0).rttEWMA = 42 ∧
    (checkOne lbC6.hc stC7b (.ok 40) 5 0).rttEWMA =
      (4 / 5) * stC7b.rttEWMA + (1 / 5) * 40 :=
  ⟨(checkOne_ewma lbC6.hc stC7a 42 5 0).1 rfl,
   (checkOne_ewma lbC6.hc stC7b 40 5 0).2 (by norm_num [stC7b, stC7a])⟩

/-! ### C8: warm standby slot -/

/-- C8: the standby slot holds at most one connection by construction (it is
an `Option`), and `EnsureStandbyTCP` (a) drains and closes the slot with
reason `standby-reset` whenever the upstream is unhealthy or still cooling
down, (b) returns without dialing when a standby already exists (the result
does not consult `dial` or the second slot read), and (c) when a concurrent
filler installed a connection between the exists-check and the install, the
freshly dialed connection is closed with reason `duplicate-standby` and the
installed one is kept. -/
theorem ensureStandby_spec (healthy : Bool) (cooldownUntil now : ℚ)
    (slotA dial slotB : Option ℕ) (c d : ℕ) :
    (¬ (healthy = true ∧ cooldownUntil < now) →
      (EnsureStandbyTCP healthy cooldownUntil now slotA dial slotB).1 = none ∧
      (slotA = some c →
        (c, "standby-reset") ∈
          (EnsureStandbyTCP healthy cooldownUntil now slotA dial slotB).2)) ∧
    (healthy = true ∧ cooldownUntil < now →
      (slotA = some c →
        EnsureStandbyTCP healthy cooldownUntil now slotA dial slotB =
          (some c, [])) ∧
      (slotA = none → dial = some c → slotB = some d →
        EnsureStandbyTCP healthy cooldownUntil now slotA dial slotB =
          (some d, [(c, "duplicate-standby")])) ∧
      (slotA = none → dial = some c → slotB = none →
        EnsureStandbyTCP healthy cooldownUntil now slotA dial slotB =
          (some c, []))) := by
  constructor
  · intro h
    simp only [EnsureStandbyTCP, if_neg h]
    cases slotA with
    | none => exact ⟨rfl, by intro h'; cases h'⟩
    | some a =>
      refine ⟨rfl, ?_⟩
      intro h'
      cases h'
      simp
  · intro h
    refine ⟨?_, ?_, ?_⟩
    · intro hA
      subst hA
      simp only [EnsureStandbyTCP, if_pos h]
    · intro hA hD hB
      subst hA; subst hD; subst hB
      simp only [EnsureStandbyTCP, if_pos h]
    · intro hA hD hB
      subst hA; subst hD; subst hB
      simp only [EnsureStandbyTCP, if_pos h]

/-- C8 witness: the duplicate-standby race applied at concrete values — the
slot was empty at the exists-check, the dial produced connection 7, but
connection 9 was installed concurrently, so 7 is closed as
`duplicate-standby` and 9 is kept. -/
theorem ensureStandby_spec_witness :
    EnsureStandbyTCP true 0 100 none (some 7) (some 9) =
      (some 9, [(7, "duplicate-standby")]) :=
  ((ensureStandby_spec true 0 100 none (some 7) (some 9) 7 9).2
      ⟨rfl, by norm_num⟩).2.1 rfl rfl rfl

/-! ### C9: UDP port-table bound -/

/-- C9: a `getOrCreate` call on a key absent from the table while the table
already holds `udp_max_flows` entries (`cfg.UDPMaxFlows`, defaulting to 4096
when not positive) returns the explicit limit error with the table unchanged
and no failure reported; the right-hand side mentions neither `pickRes` nor
`sessRes`, so the rejected call performs no upstream pick and creates no
session. -/
theorem getOrCreate_limit_rejects (cfgLimit : ℤ)
    (ports : List (udpPortKey × udpPortSession)) (key : udpPortKey) (now : ℚ)
    (pickRes : Except String ℕ) (sessRes : ℕ → Except String ℕ)
    (habs : portsLookup ports key = none)
    (hfull : (if cfgLimit ≤ 0 then 4096 else cfgLimit) ≤ (ports.length : ℤ)) :
    getOrCreate cfgLimit ports key now pickRes sessRes =
      (.error (.limitReached (if cfgLimit ≤ 0 then 4096 else cfgLimit)),
        ports, false) := by
  simp only [getOrCreate, habs]
  rw [if_pos hfull]

/-- Two-entry table used by the C9 witness. -/
def portsC9 : List (udpPortKey × udpPortSession) :=
  [({ netProto := 17, srcIP := "10.0.0.1", srcPort := 1 },
    { up := 0, sess := 0, lastSeen := 0 }),
   ({ netProto := 17, srcIP := "10.0.0.1", srcPort := 2 },
    { up := 0, sess := 1, lastSeen := 0 })]

/-- Fresh key used by the C9 witness. -/
def keyC9 : udpPortKey :=
  { netProto := 17, srcIP := "10.0.0.1", srcPort := 3 }

/-- C9 witness: with `udp_max_flows = 2` and a full two-entry table, the
lookup-or-create of a fresh key is rejected with the limit error and the
table is returned unchanged. -/
theorem getOrCreate_limit_rejects_witness :
    getOrCreate 2 portsC9 keyC9 50 (.ok 0) (fun u => .ok u) =
      (.error (.limitReached (if (2 : ℤ) ≤ 0 then 4096 else 2)),
        portsC9, false) :=
  getOrCreate_limit_rejects 2 portsC9 keyC9 50 (.ok 0) (fun u => .ok u)
    (by decide) (by decide)

/-! ### C10: SOCKS address decoding -/

/-- C10: the SOCKS address decoder is total and in-bounds: every successful
decode consumes an offset with `0 < off ≤ |plain|` (all its reads lie below
`off`), the empty input and every input too short for its address type are
rejected with the corresponding error, and an ATYP outside {0x01, 0x03,
0x04} is rejected as `bad atyp`. -/
theorem parseSocksAddr_safe (plain : List ℕ) :
    (∀ (hh : SocksHost) (p off : ℕ),
      parseSocksAddrFromPlain plain = .ok (hh, p, off) →
        0 < off ∧ off ≤ plain.length) ∧
    (plain = [] → parseSocksAddrFromPlain plain = .error "short") ∧
    (∀ a rest, plain = a :: rest → a ≠ 1 → a ≠ 3 → a ≠ 4 →
      parseSocksAddrFromPlain plain = .error "bad atyp") ∧
    (∀ a rest, plain = a :: rest → a = 1 → plain.length < 7 →
      parseSocksAddrFromPlain plain = .error "short ipv4") ∧
    (∀ a rest, plain = a :: rest → a = 3 → plain.length < 2 →
      parseSocksAddrFromPlain plain = .error "short domain len") ∧
    (∀ a rest, plain = a :: rest → a = 3 → 2 ≤ plain.length →
      plain.length < 2 + (plain.drop 1).headI + 2 →
      parseSocksAddrFromPlain plain = .error "short domain") ∧
    (∀ a rest, plain = a :: rest → a = 4 → plain.length < 19 →
      parseSocksAddrFromPlain plain = .error "short ipv6") := by
  refine ⟨?_, ?_, ?_, ?_, ?_, ?_, ?_⟩
  · intro hh p off heq
    cases plain with
    | nil => cases heq
    | cons a rest =>
      simp only [parseSocksAddrFromPlain] at heq
      split_ifs at heq with h1 h2 h3 h4 h5 h6 h7
      all_goals cases heq
      all_goals simp only [List.length_cons] at *
      all_goals omega
  · intro h
    subst h
    rfl
  · intro a rest hpl ha1 ha3 ha4
    subst hpl
    simp only [parseSocksAddrFromPlain]
    split_ifs <;> first | rfl | (exfalso; omega)
  · intro a rest hpl ha hlen
    subst hpl; subst ha
    simp only [parseSocksAddrFromPlain]
    simp only [List.length_cons] at *
    split_ifs <;> first | rfl | (exfalso; omega)
  · intro a rest hpl ha hlen
    subst hpl; subst ha
    simp only [parseSocksAddrFromPlain]
    simp only [List.length_cons] at *
    split_ifs <;> first | rfl | (exfalso; omega)
  · intro a rest hpl ha hlen2 hlen
    subst hpl; subst ha
    simp only [parseSocksAddrFromPlain]
    simp only [List.length_cons] at *
    split_ifs <;> first | rfl | (exfalso; omega)
  · intro a rest hpl ha hlen
    subst hpl; subst ha
    simp only [parseSocksAddrFromPlain]
    simp only [List.length_cons] at *
    split_ifs <;> first | rfl | (exfalso; omega)

/-- C10 witness: the safety theorem applied to the spec's IPv4 test vector
`01 01 02 03 04 00 35`, which decodes to host bytes `1.2.3.4`, port 53,
offset 7. -/
theorem parseSocksAddr_safe_witness :
    parseSocksAddrFromPlain [1, 1, 2, 3, 4, 0, 53] =
      .ok (.ipv4 [1, 2, 3, 4], 53, 7) ∧
    0 < 7 ∧ 7 ≤ ([1, 1, 2, 3, 4, 0, 53] : List ℕ).length :=
  ⟨rfl,
   (parseSocksAddr_safe [1, 1, 2, 3, 4, 0, 53]).1 (.ipv4 [1, 2, 3, 4]) 53 7
     rfl⟩

end OutlineWS
